import Mathlib

/-!
Shallow embedding of `src/lib/lderp.js` (classes `Lderp`, `LderpAd`,
`LderpEdir`).  JavaScript values that flow through the adapter are modelled
by `JsVal`; a JavaScript object used as an attribute map is modelled as an
insertion-ordered association list (`AttrMap`).  Methods that may mutate
their argument in place are modelled by returning, along with their result,
the post-state of the argument object.  Calls into the external
`ldapjs-promise` client are modelled by an oracle record carrying the
outcome the client would produce for each call, and the write operations
issued to the client are collected in a trace.
-/

/-- A JavaScript value as used by the adapter: a string, a boolean, `null`,
`undefined`, or an array of strings (arrays appear as `objectClass` lists and
as multi-valued modification values). -/
inductive JsVal where
  | str (s : String)
  | bool (b : Bool)
  | null
  | undef
  | strs (vs : List String)
deriving DecidableEq, Repr

/-- JavaScript truthiness for the values in `JsVal` (arrays are always
truthy; the empty string, `false`, `null` and `undefined` are falsy). -/
def JsVal.truthy : JsVal → Bool
  | .str s => s != ""
  | .bool b => b
  | .null => false
  | .undef => false
  | .strs _ => true

/-- JavaScript `a || b`: returns `a` when truthy, otherwise `b`. -/
def jsOr (a b : JsVal) : JsVal := if a.truthy then a else b

/-- JavaScript string coercion, as performed by a template literal. -/
def JsVal.toJsString : JsVal → String
  | .str s => s
  | .bool b => if b then "true" else "false"
  | .null => "null"
  | .undef => "undefined"
  | .strs vs => String.intercalate "," vs

/-- A JavaScript object used as an attribute map: an insertion-ordered
association list from property name to value. -/
abbrev AttrMap := List (String × JsVal)

/-- Property read `obj.k`: the stored value, or `undefined` when absent. -/
def jsGet : AttrMap → String → JsVal
  | [], _ => .undef
  | (k1, v1) :: rest, k => if k1 = k then v1 else jsGet rest k

/-- Property write `obj.k = v`: overwrites in place (keeping the property's
position) or appends a new property at the end, as JavaScript does. -/
def setField : AttrMap → String → JsVal → AttrMap
  | [], k, v => [(k, v)]
  | (k1, v1) :: rest, k, v =>
    if k1 = k then (k, v) :: rest else (k1, v1) :: setField rest k v

/-- An error surfaced to the adapter's caller: a thrown `Error` with its
message, or a `TypeError` raised by the JavaScript runtime. -/
inductive JsError where
  | error (msg : String)
  | typeError (msg : String)
deriving DecidableEq, Repr

/-- JavaScript `String.prototype.toUpperCase` restricted to ASCII (the only
case the adapter exercises: the tokens `true` and `false`). -/
def jsToUpperCase (s : String) : String := String.mk (s.data.map Char.toUpper)

/-- Lderp.fixValue from `src/lib/lderp.js` lines 88-94, on a string input:
`switch (value.toUpperCase())` mapping `FALSE` to boolean false and `TRUE`
to boolean true, returning the raw string otherwise. -/
def Lderp.fixValueStr (typ value : String) : JsVal :=
  if jsToUpperCase value = "FALSE" then .bool false
  else if jsToUpperCase value = "TRUE" then .bool true
  else .str value

/-- Lderp.fixValue on an arbitrary JavaScript value: on a non-string the
very first step, `value.toUpperCase()`, raises a `TypeError`, because only
strings carry that method. -/
def Lderp.fixValue (typ : String) (value : JsVal) : Except JsError JsVal :=
  match value with
  | .str s => .ok (Lderp.fixValueStr typ s)
  | _ => .error (.typeError "value.toUpperCase is not a function")

/-- Lderp#buildFilterFromWhere from `src/lib/lderp.js` lines 41-47: map each
key/value pair to `(key=value)`; if more than one filter resulted, join them
inside `(&...)`, otherwise return the joined (single or empty) string. -/
def buildFilterFromWhere (whereMap : List (String × String)) : String :=
  let filters := whereMap.map (fun kv => "(" ++ kv.1 ++ "=" ++ kv.2 ++ ")")
  if filters.length > 1 then "(&" ++ String.join filters ++ ")"
  else String.join filters

/-- Lderp#buildUserFilter from `src/lib/lderp.js` lines 61-63. -/
def buildUserFilter (usernameAttribute username : String) : String :=
  "(" ++ usernameAttribute ++ "=" ++ username ++ ")"

/-- One attribute of a raw search-result pojo: a type (attribute name) and
its list of raw string values. -/
structure RawAttribute where
  typ : String
  values : List String
deriving DecidableEq, Repr

/-- A raw search-result entry pojo: `objectName` (the DN) plus attributes. -/
structure RawEntry where
  objectName : String
  attributes : List RawAttribute
deriving DecidableEq, Repr

/-- A formatted attribute value: `values` when the attribute produced more
than one value, else `values[0]` (which is `undefined` for zero values). -/
inductive FormattedValue where
  | scalar (v : JsVal)
  | multi (vs : List JsVal)
deriving DecidableEq, Repr

/-- The `(values.length > 1) ? values : values[0]` step of
Lderp#formatEntryPojo. -/
def formatValues (vs : List JsVal) : FormattedValue :=
  if vs.length > 1 then .multi vs else .scalar (vs.getD 0 .undef)

/-- A coerced user entry: the DN under `dn`, plus one formatted value per
attribute, in attribute order. -/
structure FormattedEntry where
  dn : String
  attrs : List (String × FormattedValue)
deriving DecidableEq, Repr

/-- Lderp#formatEntryPojo from `src/lib/lderp.js` lines 96-106: `dn` is the
pojo's `objectName`; every attribute value is passed through `fixValue` (raw
directory values are strings, so the string branch applies) and collapsed to
a scalar unless multi-valued. -/
def Lderp.formatEntryPojo (e : RawEntry) : FormattedEntry :=
  { dn := e.objectName
    attrs := e.attributes.map fun a =>
      (a.typ, formatValues (a.values.map fun v => Lderp.fixValueStr a.typ v)) }

/-- Lderp.search result shaping from `src/lib/lderp.js` lines 125-128, as a
function of the entry list the client's `searchReturnAll` resolved with:
every returned entry is coerced through `formatEntryPojo`. -/
def Lderp.search (entries : List RawEntry) : List FormattedEntry :=
  entries.map Lderp.formatEntryPojo

/-- Lderp.findUser from `src/lib/lderp.js` lines 82-86, as a function of the
raw entries the underlying search produced: `null` when the (always-array)
search result is empty, otherwise its first element. -/
def Lderp.findUser (raw : List RawEntry) : Option FormattedEntry :=
  match Lderp.search raw with
  | [] => none
  | e :: _ => some e

/-- Lookup of a formatted entry's attribute by name. -/
def FormattedEntry.attrValue (e : FormattedEntry) (k : String) : Option FormattedValue :=
  List.lookup k e.attrs

/-- State of the private `#client` field of an adapter instance, together
with a count of how many times `ldap.createClient` has run for it.  Client
objects are identified by their creation index. -/
structure ClientState where
  client : Option Nat
  created : Nat
deriving DecidableEq, Repr

/-- The `#client` field starts out `null` and no client has been created. -/
def initialClientState : ClientState := { client := none, created := 0 }

/-- The `get client` accessor from `src/lib/lderp.js` lines 20-31: if
`#client` is unset, create a client and store it; return the stored
client.  Nothing in the class ever resets `#client` to `null`. -/
def clientGet (s : ClientState) : Nat × ClientState :=
  match s.client with
  | some c => (c, s)
  | none => (s.created, { client := some s.created, created := s.created + 1 })

/-- The field state and the sequence of clients handed out after `n`
consecutive accesses to the `client` getter on one instance. -/
def clientAccesses : Nat → ClientState × List Nat
  | 0 => (initialClientState, [])
  | n + 1 =>
    let sr := clientAccesses n
    let cs := clientGet sr.1
    (cs.2, sr.2 ++ [cs.1])

/-- Lderp.unbind from `src/lib/lderp.js` lines 131-133: go through the
`client` getter (creating the client if none exists) and return the
client's `unbind` outcome unchanged. -/
def Lderp.unbindOp (s : ClientState) (clientUnbind : Nat → Except JsError Unit) :
    Except JsError Unit × ClientState :=
  let cs := clientGet s
  (clientUnbind cs.1, cs.2)

/-- Lderp.destroy from `src/lib/lderp.js` lines 73-75: go through the
`client` getter and return the client's `destroy` outcome unchanged. -/
def Lderp.destroyOp (s : ClientState) (clientDestroy : Nat → Except JsError Unit) :
    Except JsError Unit × ClientState :=
  let cs := clientGet s
  (clientDestroy cs.1, cs.2)

/-- The three hooks the specification calls abstract on the base adapter. -/
inductive Hook where
  | buildDn
  | buildUserEntry
  | bindAsZombie
deriving DecidableEq, Repr

/-- Outcome of invoking a method on the base class: the method exists and
throws an `Error` with the given message, or the property is absent from
the class so the invocation raises the runtime's missing-method
`TypeError`. -/
inductive HookOutcome where
  | threw (msg : String)
  | methodMissing
deriving DecidableEq, Repr

/-- Invoking each hook directly on the base class `Lderp` of
`src/lib/lderp.js`: `buildDn` (lines 37-39) and `buildUserEntry` (lines
57-59) throw with their "must be overridden by subclass" messages, while
class `Lderp` declares no `bindAsZombie` method at all (only `LderpAd` and
`LderpEdir` do), so that invocation fails with a missing-method
`TypeError`. -/
def Lderp.hookCall : Hook → HookOutcome
  | .buildDn => .threw "Lderp#buildDn must be overridden by subclass"
  | .buildUserEntry => .threw "Lderp#buildUserEntry must be overridden by subclass"
  | .bindAsZombie => .methodMissing

/-- A single-attribute modification as built by
Lderp.buildLdapModificationObject (`src/lib/lderp.js` lines 53-55): the
attribute name and the values, a non-array value being wrapped in a
singleton array. -/
structure Modification where
  typ : String
  values : List JsVal
deriving DecidableEq, Repr

/-- Lderp.buildLdapModificationObject: `Array.isArray(values)` keeps the
array, anything else is wrapped as `[values]`. -/
def buildLdapModificationObject (typ : String) (value : JsVal) : Modification :=
  { typ := typ
    values := match value with
      | .strs vs => vs.map JsVal.str
      | v => [v] }

/-- An LDAP change object as built by Lderp.buildLdapChangeObject
(`src/lib/lderp.js` lines 49-51). -/
structure LdapChange where
  operation : String
  modification : Modification
deriving DecidableEq, Repr

/-- Lderp.buildLdapChangeObject pairs an operation with a modification. -/
def buildLdapChangeObject (operation : String) (modification : Modification) :
    LdapChange :=
  { operation := operation, modification := modification }

/-- LderpEdir.buildDn from `src/lib/lderp.js` lines 193-195. -/
def LderpEdir.buildDn (cn baseDn : String) : String :=
  "cn=" ++ cn ++ "," ++ baseDn

/-- LderpEdir#buildObjectClass from `src/lib/lderp.js` lines 197-205. -/
def LderpEdir.buildObjectClass : List String :=
  ["inetOrgPerson", "organizationalPerson", "Person", "ndsLoginProperties", "Top"]

/-- LderpEdir.buildUserEntry from `src/lib/lderp.js` lines 207-212: clone
the options object (`_.clone`), set `objectClass` to the fixed list and
`uid` to the clone's `cn`.  Returned as (entry, caller's options after the
call): since every write lands on the clone, the caller's object is the
unchanged input. -/
def LderpEdir.buildUserEntry (options : AttrMap) : AttrMap × AttrMap :=
  let entry := options
  let entry := setField entry "objectClass" (.strs LderpEdir.buildObjectClass)
  let entry := setField entry "uid" (jsGet entry "cn")
  (entry, options)

/-- The `values.cn || values.username || null` computation of
LderpEdir.modifyUser (`src/lib/lderp.js` line 236). -/
def LderpEdir.newCnOf (values : AttrMap) : JsVal :=
  jsOr (jsGet values "cn") (jsOr (jsGet values "username") .null)

/-- The five in-place alias assignments of LderpEdir.modifyUser
(`src/lib/lderp.js` lines 237-241), applied to the caller's object:
`uid`, `givenName`, `mail`, `sn` and `userPassword` are each assigned the
first truthy alternative among their aliases, or `null`. -/
def LderpEdir.normalizeInPlace (values : AttrMap) : AttrMap :=
  let newCn := LderpEdir.newCnOf values
  let v1 := setField values "uid" (jsOr (jsGet values "uid") (jsOr newCn .null))
  let v2 := setField v1 "givenName"
    (jsOr (jsGet v1 "givenName") (jsOr (jsGet v1 "firstname")
      (jsOr (jsGet v1 "firstName") (jsOr (jsGet v1 "first") .null))))
  let v3 := setField v2 "mail" (jsOr (jsGet v2 "mail") (jsOr (jsGet v2 "email") .null))
  let v4 := setField v3 "sn"
    (jsOr (jsGet v3 "sn") (jsOr (jsGet v3 "lastname")
      (jsOr (jsGet v3 "lastName") (jsOr (jsGet v3 "last") .null))))
  setField v4 "userPassword"
    (jsOr (jsGet v4 "userPassword") (jsOr (jsGet v4 "password") .null))

/-- The key list passed to `_.omit` in LderpEdir.modifyUser
(`src/lib/lderp.js` line 242).  Note it holds `firstname` and `lastname`
but not `firstName`, `first`, `lastName` or `last`. -/
def LderpEdir.omittedKeys : List String :=
  ["cn", "username", "firstname", "email", "lastname", "password"]

/-- The `_.omitBy(_.omit(values, ...), _.isNull)` step of
LderpEdir.modifyUser (`src/lib/lderp.js` line 242): drop the listed keys
and every property whose value is `null` (lodash `isNull` matches `null`
only, not `undefined`). -/
def LderpEdir.stripValues (m : AttrMap) : AttrMap :=
  m.filter fun kv => !(LderpEdir.omittedKeys.contains kv.1) && !(kv.2 == JsVal.null)

/-- The change-list construction of LderpEdir.modifyUser
(`src/lib/lderp.js` lines 245-250): one `replace` change per remaining
property, in property order. -/
def LderpEdir.buildChanges (values : AttrMap) : List LdapChange :=
  values.map fun kv =>
    buildLdapChangeObject "replace" (buildLdapModificationObject kv.1 kv.2)

/-- A write operation issued to the external client capability. -/
inductive WriteOp where
  | modifyOp (dn : String) (changes : List LdapChange)
  | modifyDNOp (oldDn newDn : String)
  | addOp (dn : String) (entry : AttrMap)
  | deleteOp (dn : String)
deriving DecidableEq, Repr

/-- Oracle for the client calls LderpEdir.modifyUser can issue: the entry
list its user search resolves with, the outcome of `client.modify`, and the
outcome of `client.modifyDN`. -/
structure EdirClientOracle where
  searchEntries : List RawEntry
  modifyResult : Except JsError String
  modifyDNResult : Except JsError Unit

/-- Outcome of a LderpEdir.modifyUser call: the value returned or error
thrown, the trace of write operations issued to the client, and the
caller's `values` object after the call (the alias assignments of lines
237-241 mutate it in place; the later `values =` on line 242 only rebinds
the local variable). -/
structure ModifyUserOutcome where
  result : Except JsError String
  trace : List WriteOp
  callerValues : AttrMap

/-- LderpEdir.modifyUser from `src/lib/lderp.js` lines 234-256: normalize
aliases in place, strip omitted keys and nulls into a fresh map, resolve
the user (throwing when the search came back empty), issue one `modify`
with the replace changes, and — only when that succeeded and a new common
name (`values.cn || values.username`) was truthy — issue a `modifyDN` to
`buildDn(newCn)`; the `modify` result is returned when no rename happens or
the rename succeeds. -/
def LderpEdir.modifyUser (o : EdirClientOracle) (baseDn cn : String)
    (values : AttrMap) : ModifyUserOutcome :=
  let newCn := LderpEdir.newCnOf values
  let mutated := LderpEdir.normalizeInPlace values
  let norm := LderpEdir.stripValues mutated
  let rt : Except JsError String × List WriteOp :=
    match Lderp.findUser o.searchEntries with
    | none => (.error (.error "User could not be located"), [])
    | some user =>
      let changes := LderpEdir.buildChanges norm
      match o.modifyResult with
      | .error e => (.error e, [.modifyOp user.dn changes])
      | .ok r =>
        if newCn.truthy then
          let newDn := LderpEdir.buildDn newCn.toJsString baseDn
          match o.modifyDNResult with
          | .error e => (.error e, [.modifyOp user.dn changes, .modifyDNOp user.dn newDn])
          | .ok _ => (.ok r, [.modifyOp user.dn changes, .modifyDNOp user.dn newDn])
        else (.ok r, [.modifyOp user.dn changes])
  { result := rt.1, trace := rt.2, callerValues := mutated }

/-- Whether a write operation is a `modifyDN` (rename) call. -/
def WriteOp.isRename : WriteOp → Bool
  | .modifyDNOp _ _ => true
  | _ => false

/-- Whether a client call outcome is a success. -/
def exceptOk (r : Except JsError String) : Bool :=
  match r with
  | .ok _ => true
  | .error _ => false

theorem jsGet_setField_self (m : AttrMap) (k : String) (v : JsVal) :
    jsGet (setField m k v) k = v := by
  induction m with
  | nil => simp [setField, jsGet]
  | cons kv rest ih =>
    obtain ⟨k1, v1⟩ := kv
    by_cases h : k1 = k <;> simp [setField, jsGet, h, ih]

theorem jsGet_setField_other (m : AttrMap) (k2 k : String) (v : JsVal)
    (h : k2 ≠ k) : jsGet (setField m k2 v) k = jsGet m k := by
  induction m with
  | nil => simp [setField, jsGet, h]
  | cons kv rest ih =>
    obtain ⟨k1, v1⟩ := kv
    by_cases h1 : k1 = k2 <;> simp [setField, jsGet, h1, h, ih]

theorem jsOr_ne_undef (a b : JsVal) (hb : b ≠ JsVal.undef) :
    jsOr a b ≠ JsVal.undef := by
  unfold jsOr
  by_cases h : a.truthy
  · simp only [h, if_true]
    intro he
    rw [he] at h
    simp [JsVal.truthy] at h
  · simp only [h, if_false]
    exact hb

theorem jsGet_normalize_uid (values : AttrMap) :
    jsGet (LderpEdir.normalizeInPlace values) "uid"
      = jsOr (jsGet values "uid") (jsOr (LderpEdir.newCnOf values) .null) := by
  simp [LderpEdir.normalizeInPlace, jsGet_setField_self, jsGet_setField_other]

theorem normalizeInPlace_assigns_all (values : AttrMap) (k : String)
    (hk : k ∈ ["uid", "givenName", "mail", "sn", "userPassword"]) :
    jsGet (LderpEdir.normalizeInPlace values) k ≠ JsVal.undef := by
  simp only [List.mem_cons, List.not_mem_nil, or_false] at hk
  rcases hk with h | h | h | h | h
  all_goals subst h
  all_goals simp [LderpEdir.normalizeInPlace, jsGet_setField_self, jsGet_setField_other]
  all_goals repeat apply jsOr_ne_undef
  all_goals decide

theorem clientAccesses_pos (n : Nat) :
    (clientAccesses (n + 1)).1 = { client := some 0, created := 1 } ∧
    ∀ r ∈ (clientAccesses (n + 1)).2, r = 0 := by
  induction n with
  | zero => exact ⟨rfl, by decide⟩
  | succ m ih =>
    obtain ⟨h1, h2⟩ := ih
    constructor
    · show (clientGet (clientAccesses (m + 1)).1).2 = _
      rw [h1]
      rfl
    · show ∀ r ∈ (clientAccesses (m + 1)).2 ++ [(clientGet (clientAccesses (m + 1)).1).1], r = 0
      rw [h1]
      intro r hr
      rcases List.mem_append.mp hr with h | h
      · exact h2 r h
      · simpa [clientGet] using h

/-- C4: for a map with more than one pair the filter builder emits the
conjunction of all `(k=v)` pairs wrapped in `(&...)`; for a single pair it
emits exactly `(k=v)` with no wrapper. -/
theorem c4_filter_conjunction_or_single (w : List (String × String)) :
    (∀ k v, w = [(k, v)] → buildFilterFromWhere w = "(" ++ k ++ "=" ++ v ++ ")") ∧
    (1 < w.length →
      buildFilterFromWhere w
        = "(&" ++ String.join (w.map fun kv => "(" ++ kv.1 ++ "=" ++ kv.2 ++ ")") ++ ")") := by
  constructor
  · rintro k v rfl
    rfl
  · intro h
    have hl : 1 < (w.map fun kv => "(" ++ kv.1 ++ "=" ++ kv.2 ++ ")").length := by
      rw [List.length_map]
      exact h
    simp only [buildFilterFromWhere, if_pos hl]

/-- Witness for C4 at a one-pair and a two-pair map. -/
theorem c4_witness :
    buildFilterFromWhere [("cn", "jdoe")] = "(cn=jdoe)" ∧
    buildFilterFromWhere [("cn", "jdoe"), ("mail", "x")] = "(&(cn=jdoe)(mail=x))" := by
  constructor
  · exact (c4_filter_conjunction_or_single [("cn", "jdoe")]).1 "cn" "jdoe" rfl
  · have h := (c4_filter_conjunction_or_single [("cn", "jdoe"), ("mail", "x")]).2 (by decide)
    exact h.trans (by decide)

/-- C5 (amended): the base fixValue rule is case-insensitive on the boolean
tokens and returns any other string unchanged; on a non-boolean-token string
it is idempotent, but on a boolean token the result is a boolean, and
re-applying fixValue to a boolean raises a TypeError (booleans have no
`toUpperCase`), so re-application does not reproduce the result there. -/
theorem c5_fixvalue_tokens_and_idempotence (typ s : String) :
    (jsToUpperCase s = "TRUE" →
      Lderp.fixValue typ (JsVal.str s) = .ok (JsVal.bool true) ∧
      (Lderp.fixValue typ (JsVal.str s)).bind (Lderp.fixValue typ)
        = .error (.typeError "value.toUpperCase is not a function")) ∧
    (jsToUpperCase s = "FALSE" →
      Lderp.fixValue typ (JsVal.str s) = .ok (JsVal.bool false) ∧
      (Lderp.fixValue typ (JsVal.str s)).bind (Lderp.fixValue typ)
        = .error (.typeError "value.toUpperCase is not a function")) ∧
    (jsToUpperCase s ≠ "TRUE" → jsToUpperCase s ≠ "FALSE" →
      Lderp.fixValue typ (JsVal.str s) = .ok (JsVal.str s) ∧
      (Lderp.fixValue typ (JsVal.str s)).bind (Lderp.fixValue typ)
        = Lderp.fixValue typ (JsVal.str s)) := by
  refine ⟨fun h => ?_, fun h => ?_, fun h1 h2 => ?_⟩
  · simp [Lderp.fixValue, Lderp.fixValueStr, h, Except.bind]
  · simp [Lderp.fixValue, Lderp.fixValueStr, h, Except.bind]
  · simp [Lderp.fixValue, Lderp.fixValueStr, h1, h2, Except.bind]

/-- Witness for C5 at the mixed-case token `tRuE`, at `FALSE`, and at a
non-token string. -/
theorem c5_witness :
    Lderp.fixValue "attr" (JsVal.str "tRuE") = .ok (JsVal.bool true) ∧
    Lderp.fixValue "attr" (JsVal.str "FALSE") = .ok (JsVal.bool false) ∧
    Lderp.fixValue "attr" (JsVal.str "hello") = .ok (JsVal.str "hello") :=
  ⟨((c5_fixvalue_tokens_and_idempotence "attr" "tRuE").1 (by decide)).1,
   ((c5_fixvalue_tokens_and_idempotence "attr" "FALSE").2.1 (by decide)).1,
   ((c5_fixvalue_tokens_and_idempotence "attr" "hello").2.2 (by decide) (by decide)).1⟩

/-- Counterexample for C5 as stated: on the boolean token "true" the first
application yields the boolean `true`, and applying fixValue to that result
raises a TypeError instead of yielding the same result, so fixValue is not
idempotent on boolean tokens. -/
theorem c5_counterexample :
    Lderp.fixValue "attr" (JsVal.str "true") = .ok (JsVal.bool true) ∧
    (Lderp.fixValue "attr" (JsVal.str "true")).bind (Lderp.fixValue "attr")
      = .error (.typeError "value.toUpperCase is not a function") :=
  ⟨rfl, rfl⟩

/-- C6: findUser returns an absent result (not an error) when the search
yields zero entries, and the first coerced entry when it yields one or
more. -/
theorem c6_finduser_absent_or_first (raw : List RawEntry) :
    (raw = [] → Lderp.findUser raw = none) ∧
    (∀ e rest, raw = e :: rest → Lderp.findUser raw = some (Lderp.formatEntryPojo e)) := by
  constructor
  · rintro rfl
    rfl
  · rintro e rest rfl
    rfl

/-- Witness for C6 at the empty search result and at a one-entry result. -/
theorem c6_witness :
    Lderp.findUser [] = none ∧
    Lderp.findUser [{ objectName := "cn=jdoe,o=acme",
                      attributes := [{ typ := "cn", values := ["jdoe"] }] }]
      = some (Lderp.formatEntryPojo
          { objectName := "cn=jdoe,o=acme",
            attributes := [{ typ := "cn", values := ["jdoe"] }] }) :=
  ⟨(c6_finduser_absent_or_first []).1 rfl,
   (c6_finduser_absent_or_first _).2 _ [] rfl⟩

/-- C9: no client exists before the first access; after any positive number
of accesses to the `client` getter on one instance, exactly one client has
ever been created, and every access returned that same client. -/
theorem c9_lazy_singleton_connection (n : Nat) (h : 1 ≤ n) :
    (clientAccesses 0).1.client = none ∧
    (clientAccesses 0).1.created = 0 ∧
    (clientAccesses n).1.created = 1 ∧
    ∀ r ∈ (clientAccesses n).2, r = 0 := by
  obtain ⟨m, rfl⟩ := Nat.exists_eq_add_of_le h
  have hp := clientAccesses_pos m
  refine ⟨rfl, rfl, ?_, ?_⟩
  · rw [Nat.add_comm 1 m, hp.1]
  · rw [Nat.add_comm 1 m]
    exact hp.2

/-- Witness for C9 after three accesses. -/
theorem c9_witness :
    (clientAccesses 0).1.client = none ∧
    (clientAccesses 3).1.created = 1 ∧
    ∀ r ∈ (clientAccesses 3).2, r = 0 := by
  have h := c9_lazy_singleton_connection 3 (by decide)
  exact ⟨h.1, h.2.2.1, h.2.2.2⟩

/-- C7 (amended): unbind() and destroy() can be invoked on an adapter with
no prior connection (the lazy `client` getter then creates one), but they
forward the underlying client's unbind/destroy outcome unchanged: a failure
of the underlying call propagates to the caller instead of being converted
to a boolean status. -/
theorem c7_unbind_destroy_forward (s : ClientState)
    (clientUnbind clientDestroy : Nat → Except JsError Unit) :
    (Lderp.unbindOp s clientUnbind).1 = clientUnbind (clientGet s).1 ∧
    (Lderp.destroyOp s clientDestroy).1 = clientDestroy (clientGet s).1 ∧
    (Lderp.unbindOp initialClientState clientUnbind).2.client = some 0 ∧
    (Lderp.destroyOp initialClientState clientDestroy).2.client = some 0 :=
  ⟨rfl, rfl, rfl, rfl⟩

/-- Counterexample for C7 as stated: with no prior connection and an
underlying unbind/destroy that fails with a protocol error, the adapter's
unbind() and destroy() surface that very error to the caller — the failure
is propagated, not converted to a boolean success/failure result. -/
theorem c7_counterexample :
    (Lderp.unbindOp initialClientState
        (fun _ => .error (.error "protocol error"))).1
      = .error (.error "protocol error") ∧
    (Lderp.destroyOp initialClientState
        (fun _ => .error (.error "protocol error"))).1
      = .error (.error "protocol error") :=
  ⟨rfl, rfl⟩

/-- C8 (amended): invoking buildDn or buildUserEntry on the base adapter
fails with an error whose message ends in "must be overridden by subclass";
but the base class defines no bindAsZombie method at all, so invoking it on
the base type fails with the runtime's missing-method TypeError, not with a
"must be overridden by subclass" error. -/
theorem c8_base_abstract_hooks (h : Hook) :
    (h = Hook.buildDn ∨ h = Hook.buildUserEntry →
      ∃ pre, Lderp.hookCall h = .threw (pre ++ "must be overridden by subclass")) ∧
    (h = Hook.bindAsZombie → Lderp.hookCall h = .methodMissing) := by
  cases h
  · exact ⟨fun _ => ⟨"Lderp#buildDn ", by decide⟩, fun hc => Hook.noConfusion hc⟩
  · exact ⟨fun _ => ⟨"Lderp#buildUserEntry ", by decide⟩, fun hc => Hook.noConfusion hc⟩
  · refine ⟨fun hc => ?_, fun _ => rfl⟩
    rcases hc with hc | hc <;> exact Hook.noConfusion hc

/-- Witness for C8 at buildDn and bindAsZombie. -/
theorem c8_witness :
    (∃ pre, Lderp.hookCall Hook.buildDn
        = .threw (pre ++ "must be overridden by subclass")) ∧
    Lderp.hookCall Hook.bindAsZombie = HookOutcome.methodMissing :=
  ⟨(c8_base_abstract_hooks Hook.buildDn).1 (Or.inl rfl),
   (c8_base_abstract_hooks Hook.bindAsZombie).2 rfl⟩

/-- Counterexample for C8 as stated: invoking bindAsZombie on the base type
does not produce a NotImplementedError with a "must be overridden by
subclass" message; the method is simply absent, so the call fails with a
missing-method TypeError. -/
theorem c8_counterexample :
    Lderp.hookCall Hook.bindAsZombie = HookOutcome.methodMissing ∧
    Lderp.hookCall Hook.bindAsZombie
      ≠ HookOutcome.threw "Lderp#bindAsZombie must be overridden by subclass" := by
  decide

/-- C1 (amended): on a resolvable user, modifyUser issues a `modifyDN`
(rename) call if and only if the `modify` call succeeded AND the input
carried a truthy new common name (`values.cn || values.username`) — the
code does not compare the requested name with the entry's current common
name; and whenever the `modify` call fails, its error propagates and no
`modifyDN` is ever issued. -/
theorem c1_rename_iff_modify_ok_and_newcn (o : EdirClientOracle)
    (baseDn cn : String) (values : AttrMap) (user : FormattedEntry)
    (hfind : Lderp.findUser o.searchEntries = some user) :
    ((LderpEdir.modifyUser o baseDn cn values).trace.any WriteOp.isRename
      = ((LderpEdir.newCnOf values).truthy && exceptOk o.modifyResult)) ∧
    (∀ e, o.modifyResult = .error e →
      (LderpEdir.modifyUser o baseDn cn values).result = .error e ∧
      (LderpEdir.modifyUser o baseDn cn values).trace
        = [WriteOp.modifyOp user.dn (LderpEdir.buildChanges
            (LderpEdir.stripValues (LderpEdir.normalizeInPlace values)))]) := by
  constructor
  · rcases hmr : o.modifyResult with e0 | r0
    · simp [LderpEdir.modifyUser, hfind, hmr, exceptOk, WriteOp.isRename]
    · rcases hmdr : o.modifyDNResult with e1 | u1 <;>
        cases ht : (LderpEdir.newCnOf values).truthy <;>
        simp [LderpEdir.modifyUser, hfind, hmr, hmdr, ht, exceptOk, WriteOp.isRename]
  · intro e he
    constructor <;> simp [LderpEdir.modifyUser, hfind, he]

/-- Witness for C1 at a resolvable user with a common-name change and a
successful modify: the rename is issued. -/
theorem c1_witness :
    (LderpEdir.modifyUser
        { searchEntries := [{ objectName := "cn=jdoe,o=acme",
                              attributes := [{ typ := "cn", values := ["jdoe"] }] }],
          modifyResult := .ok "modified", modifyDNResult := .ok () }
        "o=acme" "jdoe" [("username", JsVal.str "jdoe2")]).trace.any WriteOp.isRename
      = ((LderpEdir.newCnOf [("username", JsVal.str "jdoe2")]).truthy
          && exceptOk (.ok "modified")) :=
  (c1_rename_iff_modify_ok_and_newcn
      { searchEntries := [{ objectName := "cn=jdoe,o=acme",
                            attributes := [{ typ := "cn", values := ["jdoe"] }] }],
        modifyResult := .ok "modified", modifyDNResult := .ok () }
      "o=acme" "jdoe" [("username", JsVal.str "jdoe2")]
      (Lderp.formatEntryPojo
        { objectName := "cn=jdoe,o=acme",
          attributes := [{ typ := "cn", values := ["jdoe"] }] }) rfl).1

/-- Counterexample for C1 as stated: the resolved entry's current common
name is "jdoe", the requested new common name is also "jdoe" (no
difference), the modify call succeeds — and the code still issues a
`modifyDN`, renaming the entry to its own DN.  The rename is therefore not
conditional on the new common name differing from the current one. -/
theorem c1_counterexample :
    Lderp.findUser [{ objectName := "cn=jdoe,o=acme",
                      attributes := [{ typ := "cn", values := ["jdoe"] }] }]
      = some { dn := "cn=jdoe,o=acme", attrs := [("cn", .scalar (.str "jdoe"))] } ∧
    LderpEdir.newCnOf [("username", JsVal.str "jdoe")] = JsVal.str "jdoe" ∧
    (LderpEdir.modifyUser
        { searchEntries := [{ objectName := "cn=jdoe,o=acme",
                              attributes := [{ typ := "cn", values := ["jdoe"] }] }],
          modifyResult := .ok "modified", modifyDNResult := .ok () }
        "o=acme" "jdoe" [("username", JsVal.str "jdoe")]).trace
      = [WriteOp.modifyOp "cn=jdoe,o=acme"
          [{ operation := "replace",
             modification := { typ := "uid", values := [JsVal.str "jdoe"] } }],
         WriteOp.modifyDNOp "cn=jdoe,o=acme" "cn=jdoe,o=acme"] := by
  decide

/-- C2: when the user search yields zero entries, modifyUser fails with the
"User could not be located" error and the trace of write operations issued
to the connection is empty — no modify, modifyDN, add or delete happens. -/
theorem c2_not_found_before_any_write (o : EdirClientOracle)
    (baseDn cn : String) (values : AttrMap) (h : o.searchEntries = []) :
    (LderpEdir.modifyUser o baseDn cn values).result
      = .error (.error "User could not be located") ∧
    (LderpEdir.modifyUser o baseDn cn values).trace = [] := by
  constructor <;> simp [LderpEdir.modifyUser, Lderp.findUser, Lderp.search, h]

/-- Witness for C2 at an unresolvable common name. -/
theorem c2_witness :
    (LderpEdir.modifyUser
        { searchEntries := [], modifyResult := .ok "x", modifyDNResult := .ok () }
        "o=acme" "ghost" [("firstname", JsVal.str "Jane")]).result
      = .error (.error "User could not be located") ∧
    (LderpEdir.modifyUser
        { searchEntries := [], modifyResult := .ok "x", modifyDNResult := .ok () }
        "o=acme" "ghost" [("firstname", JsVal.str "Jane")]).trace = [] :=
  c2_not_found_before_any_write
    { searchEntries := [], modifyResult := .ok "x", modifyDNResult := .ok () }
    "o=acme" "ghost" [("firstname", JsVal.str "Jane")] rfl

/-- C3: the `_.omit` list in modifyUser strips only `cn`, `username`,
`firstname`, `email`, `lastname` and `password`; the alias spellings
`firstName`, `first`, `lastName` and `last` — which the same function reads
when normalizing — survive it.  At input `{firstName: "Jane"}` on a
resolvable user, the modify call therefore carries a replace-change for the
alias key `firstName` alongside the canonical `givenName`, contradicting
the claim that only canonical attribute names are submitted. -/
theorem c3_alias_key_submitted_to_modify :
    (LderpEdir.modifyUser
        { searchEntries := [{ objectName := "cn=jdoe,o=acme",
                              attributes := [{ typ := "cn", values := ["jdoe"] }] }],
          modifyResult := .ok "modified", modifyDNResult := .ok () }
        "o=acme" "jdoe" [("firstName", JsVal.str "Jane")]).trace
      = [WriteOp.modifyOp "cn=jdoe,o=acme"
          [{ operation := "replace",
             modification := { typ := "firstName", values := [JsVal.str "Jane"] } },
           { operation := "replace",
             modification := { typ := "givenName", values := [JsVal.str "Jane"] } }]] ∧
    "firstName" ∈ (LderpEdir.stripValues (LderpEdir.normalizeInPlace
        [("firstName", JsVal.str "Jane")])).map Prod.fst := by
  decide

/-- C10: modifyUser mutates the caller-supplied values object in place —
for every client outcome (including failing ones) the caller's object after
the call is the alias-normalized map, whose `uid`, `givenName`, `mail`,
`sn` and `userPassword` fields have all been assigned (possibly `null`);
buildUserEntry, by contrast, works on a clone and leaves its argument
unchanged. -/
theorem c10_modifyuser_mutates_caller (o : EdirClientOracle)
    (baseDn cn : String) (values : AttrMap) (k : String)
    (hk : k ∈ ["uid", "givenName", "mail", "sn", "userPassword"]) :
    (LderpEdir.modifyUser o baseDn cn values).callerValues
      = LderpEdir.normalizeInPlace values ∧
    jsGet (LderpEdir.modifyUser o baseDn cn values).callerValues k ≠ JsVal.undef ∧
    (∀ options : AttrMap, (LderpEdir.buildUserEntry options).2 = options) :=
  ⟨rfl, normalizeInPlace_assigns_all values k hk, fun _ => rfl⟩

/-- Witness for C10 at an unresolvable user (the call fails, the caller's
object is mutated all the same). -/
theorem c10_witness :
    (LderpEdir.modifyUser
        { searchEntries := [], modifyResult := .error (.error "down"),
          modifyDNResult := .ok () } "o=acme" "jdoe" []).callerValues
      = LderpEdir.normalizeInPlace [] ∧
    jsGet (LderpEdir.modifyUser
        { searchEntries := [], modifyResult := .error (.error "down"),
          modifyDNResult := .ok () } "o=acme" "jdoe" []).callerValues "uid"
      ≠ JsVal.undef ∧
    (LderpEdir.buildUserEntry [("cn", JsVal.str "jdoe")]).2
      = [("cn", JsVal.str "jdoe")] :=
  ⟨(c10_modifyuser_mutates_caller
      { searchEntries := [], modifyResult := .error (.error "down"),
        modifyDNResult := .ok () } "o=acme" "jdoe" [] "uid" (by decide)).1,
   (c10_modifyuser_mutates_caller
      { searchEntries := [], modifyResult := .error (.error "down"),
        modifyDNResult := .ok () } "o=acme" "jdoe" [] "uid" (by decide)).2.1,
   (c10_modifyuser_mutates_caller
      { searchEntries := [], modifyResult := .error (.error "down"),
        modifyDNResult := .ok () } "o=acme" "jdoe" [] "uid" (by decide)).2.2
     [("cn", JsVal.str "jdoe")]⟩
